import Mathlib

/-!
Shallow embedding of the named-counter service of the a-h/serverless-testing
repository: the counter store backends (class-based in-memory DB, the stage-03
module-scoped fake database, the DynamoDB backends, the Firestore backend) and
the Express HTTP adapter built by stage-06 createApp, together with proofs of
the specification claims about them.

Conventions: a JS record used as a map from names to numbers is a total
function from String to Option Int (an absent key is none).  JS truthiness of
a looked-up number is the function truthy below (undefined and 0 are falsy).
The DynamoDB table and the Firestore collection are modelled the same way,
with the managed client primitives (strongly consistent point read and
conditional update) given their documented semantics.
-/

namespace ServerlessTesting

/-- Counter entity, TS interface Count with a string name and a number count. -/
@[ext]
structure Count where
  name : String
  count : Int
deriving Repr, DecidableEq

/-- A JS object used as a map from names to numbers (Record of string to number). -/
abbrev Store := String → Option Int

/-- A freshly created empty record. -/
def emptyStore : Store := fun _ => none

/-- Assignment of value v to key name in a record. -/
def Store.set (s : Store) (name : String) (v : Int) : Store :=
  fun m => if m = name then some v else s m

/-- JS truthiness of a record lookup: undefined and 0 are falsy, every other
number is truthy. -/
def truthy : Option Int → Bool
  | none => false
  | some c => c != 0

namespace inmemory

/-- Method get of class DB in src/node-lambda-example/src/db/inmemory/index.ts:
the count is the stored value with 0 substituted only when the entry is absent
(nullish coalescing), returned as a Count with the requested name. -/
def get (data : Store) (name : String) : Count :=
  { name := name, count := (data name).getD 0 }

/-- The assignment performed by method put of class DB: the entry becomes the
old value plus one when the old value is truthy, and 1 otherwise. -/
def putData (data : Store) (name : String) : Store :=
  Store.set data name (if truthy (data name) then (data name).getD 0 + 1 else 1)

/-- Method put of class DB: runs the assignment, then returns the result of
this.get(name) on the updated record. -/
def put (data : Store) (name : String) : Count × Store :=
  (get (putData data name) name, putData data name)

/-- Sequential loop of put calls on the same name, each call awaited before the
next one starts. -/
def iterPut : Nat → String → Store → Store
  | 0, _, d => d
  | k + 1, n, d => iterPut k n (put d n).2

/-- Event-loop schedule of concurrently issued put calls.  The body of put has
no await between reading the entry and assigning it, so under the run-to-
completion semantics of the JS event loop each call applies as one indivisible
transition; a schedule is the order in which the event loop runs the calls,
possibly interleaving increments for other names. -/
def runIncrements (sched : List String) (d : Store) : Store :=
  sched.foldl (fun s n => (put s n).2) d

end inmemory

/-- One client-visible store operation. -/
inductive Op where
  | get (name : String)
  | increment (name : String)
deriving Repr, DecidableEq

namespace inmemory

/-- Effect of one operation on a DB instance: get reads without writing,
increment is put. -/
def step (d : Store) : Op → Count × Store
  | Op.get n => (get d n, d)
  | Op.increment n => put d n

/-- Run a sequence of operations on a DB instance, collecting the returned
Counters and the final record. -/
def run (d : Store) : List Op → List Count × Store
  | [] => ([], d)
  | op :: ops =>
    ((step d op).1 :: (run (step d op).2 ops).1, (run (step d op).2 ops).2)

end inmemory

namespace fake

/-- Function get of src/_stages/03-fake-database/src/index.ts: the count is the
stored value with 0 substituted when the value is falsy (the or-operator also
replaces a stored 0 by 0). -/
def get (db : Store) (name : String) : Count :=
  { name := name, count := if truthy (db name) then (db name).getD 0 else 0 }

/-- Store effect of function increment: when the entry is falsy it is first
set to 0, then the entry is incremented in place. -/
def incrementData (db : Store) (name : String) : Store :=
  let db1 := if truthy (db name) then db else Store.set db name 0
  Store.set db1 name ((db1 name).getD 0 + 1)

/-- Function increment: updates the record, then returns get(name). -/
def increment (db : Store) (name : String) : Count × Store :=
  (get (incrementData db name) name, incrementData db name)

/-- Effect of one operation on the module-scoped fake database. -/
def step (db : Store) : Op → Count × Store
  | Op.get n => (get db n, db)
  | Op.increment n => increment db n

/-- Run a sequence of operations on the fake database, collecting the returned
Counters and the final record. -/
def run (db : Store) : List Op → List Count × Store
  | [] => ([], db)
  | op :: ops =>
    ((step db op).1 :: (run (step db op).2 ops).1, (run (step db op).2 ops).2)

end fake

namespace dynamosimple

/-- Function get of src/node-count-example/src/db/dynamosimple/index.ts: a
GetCommand with ConsistentRead (a strongly consistent point read of the
table); when the item is missing the zero-valued Counter is synthesized. -/
def get (table : Store) (name : String) : Count :=
  match table name with
  | some c => { name := name, count := c }
  | none => { name := name, count := 0 }

/-- Function increment: a single UpdateCommand setting the count attribute to
if_not_exists(count, 0) + 1 with ReturnValues ALL_NEW; DynamoDB applies the
conditional update atomically per key and returns the new attributes. -/
def increment (table : Store) (name : String) : Count × Store :=
  ({ name := name, count := (table name).getD 0 + 1 },
    Store.set table name ((table name).getD 0 + 1))

/-- Sequential loop of increment calls on the same name. -/
def iterIncrement : Nat → String → Store → Store
  | 0, _, t => t
  | k + 1, n, t => iterIncrement k n (increment t n).2

end dynamosimple

namespace dynamo

/-- Method get of class DB in src/node-lambda-example/src/db/dynamo/index.ts: a
consistent GetCommand followed by returning result.Item with no guard, so a
missing record makes the method resolve to undefined (none here). -/
def get (table : Store) (name : String) : Option Count :=
  (table name).map fun c => { name := name, count := c }

end dynamo

namespace firestore

/-- Function get of src/node-count-example/src/db/firestore/index.ts: when the
document does not exist the function returns null (none here), otherwise the
document data. -/
def get (db : Store) (name : String) : Option Count :=
  (db name).map fun c => { name := name, count := c }

/-- Function put: an update call with FieldValue.increment(1), then get(name).
The Firestore client rejects an update of a document that does not exist with
NOT_FOUND (update never creates a document); on an existing document the field
increment adds one atomically. -/
def put (db : Store) (name : String) : Except String (Option Count × Store) :=
  match db name with
  | none => Except.error "NOT_FOUND"
  | some c =>
    Except.ok (get (Store.set db name (c + 1)) name, Store.set db name (c + 1))

end firestore

/-- HTTP response: status code plus the JSON body rendered as a string. -/
structure HttpResponse where
  status : Nat
  body : String
deriving Repr, DecidableEq

/-- Serialization res.json of a Count value, following the object-literal field
order: name, then count. -/
def countJson (c : Count) : String :=
  "\x7b\"name\":\"" ++ c.name ++ "\",\"count\":" ++ toString c.count ++ "\x7d"

/-- The fixed error envelope written by handleError in
src/_stages/06-test-database-failure/src/index.ts. -/
def internalServerErrorJson : String :=
  "\x7b\"status\":500,\"msg\":\"internal server error\"\x7d"

/-- Type DBOperation: a function from a name to a promise of a Count; the
promise either resolves with a Count or rejects, the rejected value being
carried here as a string. -/
abbrev DBOperation := String → Except String Count

/-- Part of the Express request visible to the two routes: the name route
parameter and the optional request body. -/
structure Request where
  paramName : String
  body : Option String
deriving Repr, DecidableEq

/-- Function handleError: logs the caught value, then sets status 500 and
writes the fixed JSON envelope; nothing of the caught value reaches the
response. -/
def handleError (_e : String) : HttpResponse :=
  { status := 500, body := internalServerErrorJson }

/-- The Express application returned by createApp, as its two route handlers. -/
structure App where
  handleGet : Request → HttpResponse
  handlePost : Request → HttpResponse

/-- Function createApp of src/_stages/06-test-database-failure/src/index.ts:
the GET route awaits get(req.params.name) inside try and responds with its
JSON (status 200), catching any rejection with handleError; the POST route
does the same with increment(req.params.name). -/
def createApp (get increment : DBOperation) : App :=
  { handleGet := fun req =>
      match get req.paramName with
      | Except.ok c => { status := 200, body := countJson c }
      | Except.error e => handleError e,
    handlePost := fun req =>
      match increment req.paramName with
      | Except.ok c => { status := 200, body := countJson c }
      | Except.error e => handleError e }

/-- The failing store operation throwDatabaseError used by the stage-06 test. -/
def throwDatabaseError : DBOperation := fun _ => Except.error "database error"

namespace countPost

/-- Function create of src/node-lambda-example/src/sync/count/post/index.ts:
destructures name from req.params, awaits incrementCount(name) and responds
with its JSON; no other part of the request is read. -/
def create (incrementCount : String → Count) (req : Request) : HttpResponse :=
  { status := 200, body := countJson (incrementCount req.paramName) }

end countPost

/-! ### Helper lemmas about the backends -/

/-- The value written by the in-memory put is always the old count plus one:
a falsy entry (absent or 0) has count 0, and the branch writing 1 agrees with
0 + 1. -/
theorem inmemory.putVal (cur : Option Int) :
    (if truthy cur then cur.getD 0 + 1 else 1) = cur.getD 0 + 1 := by
  cases cur with
  | none => simp [truthy]
  | some c =>
    by_cases hc : c = 0 <;> simp [truthy, hc]

/-- Pointwise description of the record after an in-memory put. -/
theorem inmemory.putData_apply (d : Store) (n m : String) :
    inmemory.putData d n m = if m = n then some ((d n).getD 0 + 1) else d m := by
  unfold inmemory.putData Store.set
  rw [inmemory.putVal]

/-- An in-memory put adds exactly one to the count of its own name and leaves
every other count unchanged. -/
theorem inmemory.get_put_count (d : Store) (n m : String) :
    (inmemory.get (inmemory.put d n).2 m).count
      = (inmemory.get d m).count + (if m = n then 1 else 0) := by
  show (inmemory.get (inmemory.putData d n) m).count = _
  unfold inmemory.get
  rw [inmemory.putData_apply]
  by_cases hm : m = n <;> simp [hm]

/-- Running a schedule of put calls adds, to each count, the number of calls
for that name in the schedule. -/
theorem inmemory.runIncrements_count (sched : List String) :
    ∀ (d : Store) (m : String),
      (inmemory.get (inmemory.runIncrements sched d) m).count
        = (inmemory.get d m).count + (sched.count m : Int) := by
  induction sched with
  | nil =>
    intro d m
    simp [inmemory.runIncrements]
  | cons n t ih =>
    intro d m
    have h1 : inmemory.runIncrements (n :: t) d
        = inmemory.runIncrements t (inmemory.put d n).2 := rfl
    rw [h1, ih, inmemory.get_put_count, List.count_cons]
    by_cases hm : m = n
    · simp [hm]
      ring
    · simp [hm, Ne.symm hm]

/-- A sequential loop of k put calls adds k to the count of its name. -/
theorem inmemory.iterPut_count (k : Nat) :
    ∀ (d : Store) (n : String),
      (inmemory.get (inmemory.iterPut k n d) n).count
        = (inmemory.get d n).count + (k : Int) := by
  induction k with
  | zero =>
    intro d n
    simp [inmemory.iterPut]
  | succ k ih =>
    intro d n
    show (inmemory.get (inmemory.iterPut k n (inmemory.put d n).2) n).count = _
    rw [ih, inmemory.get_put_count]
    simp
    ring

/-- The count read by the dynamosimple get is the stored value with default 0. -/
theorem dynamosimple.get_count (t : Store) (m : String) :
    (dynamosimple.get t m).count = (t m).getD 0 := by
  unfold dynamosimple.get
  cases t m <;> rfl

/-- The name field of the dynamosimple get result is the requested name. -/
theorem dynamosimple.get_name (t : Store) (m : String) :
    (dynamosimple.get t m).name = m := by
  unfold dynamosimple.get
  cases t m <;> rfl

/-- A dynamosimple increment adds exactly one to the count of its own name and
leaves every other count unchanged. -/
theorem dynamosimple.get_increment_count (t : Store) (n m : String) :
    (dynamosimple.get (dynamosimple.increment t n).2 m).count
      = (dynamosimple.get t m).count + (if m = n then 1 else 0) := by
  show (dynamosimple.get (Store.set t n ((t n).getD 0 + 1)) m).count = _
  rw [dynamosimple.get_count, dynamosimple.get_count]
  unfold Store.set
  by_cases hm : m = n <;> simp [hm]

/-- A sequential loop of k dynamosimple increments adds k to the count of its
name. -/
theorem dynamosimple.iterIncrement_count (k : Nat) :
    ∀ (t : Store) (n : String),
      (dynamosimple.get (dynamosimple.iterIncrement k n t) n).count
        = (dynamosimple.get t n).count + (k : Int) := by
  induction k with
  | zero =>
    intro t n
    simp [dynamosimple.iterIncrement]
  | succ k ih =>
    intro t n
    show (dynamosimple.get
        (dynamosimple.iterIncrement k n (dynamosimple.increment t n).2) n).count = _
    rw [ih, dynamosimple.get_increment_count]
    simp
    ring

/-- Invariant of reachable in-memory records: every stored value is at least 1. -/
def StorePos (d : Store) : Prop := ∀ m c, d m = some c → 1 ≤ c

theorem storePos_empty : StorePos emptyStore := by
  intro m c h
  simp [emptyStore] at h

theorem storePos_step (d : Store) (op : Op) (h : StorePos d) :
    StorePos (inmemory.step d op).2 := by
  cases op with
  | get n => exact h
  | increment n =>
    intro m c hmc
    have hmc2 : inmemory.putData d n m = some c := hmc
    rw [inmemory.putData_apply] at hmc2
    by_cases hm : m = n
    · rw [if_pos hm] at hmc2
      have hv : 0 ≤ (d n).getD 0 := by
        cases hdn : d n with
        | none => simp
        | some v => simpa using le_trans zero_le_one (h n v hdn)
      have : (d n).getD 0 + 1 = c := by
        simpa using hmc2
      omega
    · rw [if_neg hm] at hmc2
      exact h m c hmc2

theorem storePos_run (ops : List Op) :
    ∀ (d : Store), StorePos d → StorePos (inmemory.run d ops).2 := by
  induction ops with
  | nil =>
    intro d h
    exact h
  | cons op ops ih =>
    intro d h
    exact ih (inmemory.step d op).2 (storePos_step d op h)

theorem get_count_nonneg_of_pos (d : Store) (h : StorePos d) (n : String) :
    0 ≤ (inmemory.get d n).count := by
  unfold inmemory.get
  cases hv : d n with
  | none => simp
  | some c => simpa using le_trans zero_le_one (h n c hv)

/-! ### Helper lemmas for the equivalence of the two in-memory databases -/

/-- The stage-03 get computes the same Counter as the class-based get: the two
defaulting operators differ only at a stored 0, where both produce 0. -/
theorem fake.get_eq (d : Store) (n : String) : fake.get d n = inmemory.get d n := by
  unfold fake.get inmemory.get
  cases hv : d n with
  | none => simp [truthy]
  | some c =>
    by_cases hc : c = 0 <;> simp [truthy, hc]

/-- The stage-03 increment writes the same record as the class-based put. -/
theorem fake.incrementData_eq (d : Store) (n : String) :
    fake.incrementData d n = inmemory.putData d n := by
  funext m
  rw [inmemory.putData_apply]
  unfold fake.incrementData Store.set
  cases ht : truthy (d n) with
  | false =>
    have hdn : (d n).getD 0 = 0 := by
      cases hv : d n with
      | none => rfl
      | some c =>
        rw [hv] at ht
        have hc : c = 0 := by simpa [truthy] using ht
        simp [hv, hc]
    by_cases hm : m = n <;> simp [ht, hm, hdn]
  | true =>
    by_cases hm : m = n <;> simp [ht, hm]

theorem fake.step_eq (d : Store) (op : Op) : fake.step d op = inmemory.step d op := by
  cases op with
  | get n =>
    show (fake.get d n, d) = (inmemory.get d n, d)
    rw [fake.get_eq]
  | increment n =>
    show fake.increment d n = inmemory.put d n
    unfold fake.increment inmemory.put
    rw [fake.incrementData_eq, fake.get_eq]

theorem fake.run_eq (ops : List Op) : ∀ d, fake.run d ops = inmemory.run d ops := by
  induction ops with
  | nil =>
    intro d
    rfl
  | cons op ops ih =>
    intro d
    show ((fake.step d op).1 :: (fake.run (fake.step d op).2 ops).1,
        (fake.run (fake.step d op).2 ops).2) = _
    rw [fake.step_eq, ih]
    rfl

/-- An error reply of the GET route of createApp. -/
theorem createApp_handleGet_error (g i : DBOperation) (req : Request) (e : String)
    (h : g req.paramName = Except.error e) :
    (createApp g i).handleGet req = handleError e := by
  unfold createApp
  simp [h]

/-- An error reply of the POST route of createApp. -/
theorem createApp_handlePost_error (g i : DBOperation) (req : Request) (e : String)
    (h : i req.paramName = Except.error e) :
    (createApp g i).handlePost req = handleError e := by
  unfold createApp
  simp [h]

/-! ### The claims -/

/-- C1: for every event-loop schedule of concurrently issued increment calls
against a fresh in-memory DB instance, the final count of every name equals
the number of increment calls for that name in the schedule; in particular,
issuing k concurrent increment(name) calls and awaiting all of them yields a
final count of exactly k, with no lost updates.  The whole check-then-set of
put executes as one indivisible transition (the method body has no await
between the read and the assignment), so the critical section spans the whole
check-then-set. -/
theorem concurrent_increments_no_lost_updates (sched : List String) (name : String) :
    (inmemory.get (inmemory.runIncrements sched emptyStore) name).count
      = (sched.count name : Int) := by
  have h := inmemory.runIncrements_count sched emptyStore name
  simpa [inmemory.get, emptyStore] using h

/-- C2, evaluation at the failing input: on a table with no record for the
requested key, the get of the node-lambda-example DynamoDB class returns
result.Item unguarded, that is nothing (undefined), instead of the zero-valued
Counter — while the dynamosimple backend, the in-memory backend and the
stage-03 fake database do synthesize the zero-valued Counter, as the claim and
the integration test of the DynamoDB class expect. -/
theorem get_absent_zero_synthesis :
    dynamo.get emptyStore "test2" = none ∧
    dynamosimple.get emptyStore "test2" = { name := "test2", count := 0 } ∧
    inmemory.get emptyStore "test2" = { name := "test2", count := 0 } ∧
    fake.get emptyStore "test2" = { name := "test2", count := 0 } :=
  ⟨rfl, rfl, rfl, rfl⟩

/-- C3: starting from a state where the name is absent, n sequential successful
increment calls (each awaited before the next) make get return the Counter
with count = n, on the in-memory backend and on the dynamosimple backend. -/
theorem sequential_increments_reach_n (d t : Store) (name : String) (n : Nat)
    (hd : d name = none) (ht : t name = none) (_hn : 1 ≤ n) :
    inmemory.get (inmemory.iterPut n name d) name
      = { name := name, count := (n : Int) } ∧
    dynamosimple.get (dynamosimple.iterIncrement n name t) name
      = { name := name, count := (n : Int) } := by
  constructor
  · apply Count.ext
    · rfl
    · rw [inmemory.iterPut_count]
      show (d name).getD 0 + (n : Int) = (n : Int)
      rw [hd]
      simp
  · apply Count.ext
    · rw [dynamosimple.get_name]
    · rw [dynamosimple.iterIncrement_count, dynamosimple.get_count, ht]
      simp

theorem sequential_increments_reach_n_witness :
    (emptyStore "x" = none ∧ emptyStore "x" = none ∧ 1 ≤ 3) ∧
    (inmemory.get (inmemory.iterPut 3 "x" emptyStore) "x"
        = { name := "x", count := (3 : Int) } ∧
     dynamosimple.get (dynamosimple.iterIncrement 3 "x" emptyStore) "x"
        = { name := "x", count := (3 : Int) }) :=
  ⟨⟨rfl, rfl, by decide⟩,
   sequential_increments_reach_n emptyStore emptyStore "x" 3 rfl rfl (by decide)⟩

/-- C4: when the injected store operations always reject, both routes of
createApp answer every request with status 500 and exactly the fixed error
envelope; the response is a constant, so no detail of the thrown values
(message or stack) can reach the client. -/
theorem store_failure_maps_to_fixed_500 (get increment : DBOperation)
    (hget : ∀ n, ∃ e, get n = Except.error e)
    (hinc : ∀ n, ∃ e, increment n = Except.error e) (req : Request) :
    (createApp get increment).handleGet req
      = { status := 500, body := internalServerErrorJson } ∧
    (createApp get increment).handlePost req
      = { status := 500, body := internalServerErrorJson } := by
  obtain ⟨e1, he1⟩ := hget req.paramName
  obtain ⟨e2, he2⟩ := hinc req.paramName
  exact ⟨by rw [createApp_handleGet_error get increment req e1 he1]; rfl,
    by rw [createApp_handlePost_error get increment req e2 he2]; rfl⟩

theorem store_failure_maps_to_fixed_500_witness :
    ((∀ n, ∃ e, throwDatabaseError n = Except.error e) ∧
     (∀ n, ∃ e, throwDatabaseError n = Except.error e)) ∧
    ((createApp throwDatabaseError throwDatabaseError).handleGet
        { paramName := "fail", body := none }
      = { status := 500, body := internalServerErrorJson } ∧
     (createApp throwDatabaseError throwDatabaseError).handlePost
        { paramName := "fail", body := none }
      = { status := 500, body := internalServerErrorJson }) :=
  ⟨⟨fun _ => ⟨"database error", rfl⟩, fun _ => ⟨"database error", rfl⟩⟩,
   store_failure_maps_to_fixed_500 throwDatabaseError throwDatabaseError
     (fun _ => ⟨"database error", rfl⟩) (fun _ => ⟨"database error", rfl⟩)
     { paramName := "fail", body := none }⟩

/-- C5, evaluation at the failing input: on a store with no record for the
name, the in-memory put, the stage-03 increment and the dynamosimple increment
all create the counter at value 1 and return it, but the Firestore put rejects
(its update call fails with NOT_FOUND on a document that does not exist)
instead of creating the counter at value 1. -/
theorem increment_absent_creates_at_one :
    (inmemory.put emptyStore "x").1 = { name := "x", count := 1 } ∧
    (fake.increment emptyStore "x").1 = { name := "x", count := 1 } ∧
    (dynamosimple.increment emptyStore "x").1 = { name := "x", count := 1 } ∧
    (firestore.put emptyStore "x").toOption = none :=
  ⟨rfl, rfl, rfl, rfl⟩

/-- C6: get is idempotent and side-effect free on the in-memory DB: a get step
returns the record unchanged, and a second get with no intervening increment
returns the same Counter as the first. -/
theorem get_idempotent_and_effect_free (d : Store) (n : String) :
    (inmemory.step d (Op.get n)).2 = d ∧
    (inmemory.step (inmemory.step d (Op.get n)).2 (Op.get n)).1
      = (inmemory.step d (Op.get n)).1 :=
  ⟨rfl, rfl⟩

/-- C7: every count readable from a store reachable from a fresh in-memory DB
by any sequence of operations is non-negative; a successful increment changes
the count of its name by exactly plus one; and a get step leaves every counter
unchanged. -/
theorem counts_nonneg_and_unit_mutation (ops : List Op) (d : Store) (a n m : String) :
    0 ≤ (inmemory.get (inmemory.run emptyStore ops).2 n).count ∧
    (inmemory.get (inmemory.put d a).2 a).count = (inmemory.get d a).count + 1 ∧
    inmemory.get (inmemory.step d (Op.get n)).2 m = inmemory.get d m := by
  refine ⟨get_count_nonneg_of_pos _ (storePos_run ops emptyStore storePos_empty) n, ?_, rfl⟩
  have h := inmemory.get_put_count d a a
  simpa using h

/-- C8: an increment of one name leaves the counter of every other name
unchanged, in the in-memory backend and in the dynamosimple backend. -/
theorem increment_frame_other_names (d t : Store) (a b : String) (hab : a ≠ b) :
    inmemory.get (inmemory.put d a).2 b = inmemory.get d b ∧
    dynamosimple.get (dynamosimple.increment t a).2 b = dynamosimple.get t b := by
  have hba : ¬b = a := fun h => hab h.symm
  constructor
  · show inmemory.get (inmemory.putData d a) b = inmemory.get d b
    unfold inmemory.get
    rw [inmemory.putData_apply]
    simp [hba]
  · show dynamosimple.get (Store.set t a ((t a).getD 0 + 1)) b = dynamosimple.get t b
    unfold dynamosimple.get Store.set
    simp [hba]

theorem increment_frame_other_names_witness :
    ("a" : String) ≠ "b" ∧
    (inmemory.get (inmemory.put emptyStore "a").2 "b" = inmemory.get emptyStore "b" ∧
     dynamosimple.get (dynamosimple.increment emptyStore "a").2 "b"
       = dynamosimple.get emptyStore "b") :=
  ⟨by decide, increment_frame_other_names emptyStore emptyStore "a" "b" (by decide)⟩

/-- C9: the response of the POST route does not depend on the request body:
with the same injected store operation (hence against identical store states)
and the same name parameter, any two request bodies produce the same status
and body, both in the stage-06 createApp POST route and in the post handler
factory of the lambda example. -/
theorem post_response_ignores_body (increment : DBOperation)
    (incrementCount : String → Count) (n : String) (b1 b2 : Option String) :
    (createApp increment increment).handlePost { paramName := n, body := b1 }
      = (createApp increment increment).handlePost { paramName := n, body := b2 } ∧
    countPost.create incrementCount { paramName := n, body := b1 }
      = countPost.create incrementCount { paramName := n, body := b2 } :=
  ⟨rfl, rfl⟩

/-- C10: the class-based in-memory DB and the stage-03 module-scoped fake
database are observationally equivalent: any finite sequence of get and
increment operations applied to a fresh instance of each returns the same
sequence of Counters, and leaves extensionally equal records. -/
theorem class_db_equiv_module_db (ops : List Op) :
    (inmemory.run emptyStore ops).1 = (fake.run emptyStore ops).1 ∧
    ∀ n, (inmemory.run emptyStore ops).2 n = (fake.run emptyStore ops).2 n := by
  rw [fake.run_eq]
  exact ⟨rfl, fun _ => rfl⟩

end ServerlessTesting
